import Mathlib

/-!
Shallow embedding of `src/Tester.py`, a pytest-based harness that runs bash
scripts described by JSON test-case descriptors, validates their results and
logs them.

Modelling conventions:
* Paths are plain strings; a path is absolute iff it starts with `"/"`.
* The environment (`Env`) abstracts the filesystem and the operating system:
  `fileExists` is `Path.exists()`, `readFile` returns the content of a
  readable existing file (and `none` when the file does not exist), and
  `runScript` is the outcome of `subprocess.run(['bash', path], ...)` on the
  resolved path (a completed process with exit code / stdout / stderr /
  elapsed wall-clock seconds, a `subprocess.TimeoutExpired`, or any other
  exception raised while chmod-ing or launching, carrying `str(e)`).
* Wall-clock durations are modelled as whole seconds (`Nat`); the source
  formats them with two decimals, rendered here by `fmt2`.
* Python dictionaries for test cases become `TestCaseDict` with `Option`
  fields; `dict.get(k, d)` becomes `Option.getD`.
* Raising an exception / a failing `assert` becomes returning
  `Except.error` with a `TestFailure` describing the exception. In
  particular, evaluating the assertion message of line 232 of the source
  reads the local variable `script_dir`, which is unbound when
  `script_path` is absolute: this is modelled by `TestFailure.nameError`
  (Python's `UnboundLocalError`).
* The logger's global state (`TEST_RUN_DIR`, `RESULT_LOG_FILE`) and its
  filesystem effects become explicit state passing over `LoggerState`,
  whose `files` field is an association list path ↦ content and whose
  `dirs` field records the directories created by `mkdir(exist_ok=True)`.
* `datetime.now().strftime(...)` values are passed in as string parameters.
-/

/-- The outcome of attempting to run `bash path` in the OS: the abstract
input that `execute_bash_script`'s `try/except` discriminates on. -/
inductive RunOutcome where
  | completed (returncode : Int) (stdout stderr : String) (elapsed : Nat)
  | timedOut
  | launchError (msg : String)
deriving DecidableEq

/-- The dictionary returned by `execute_bash_script` (source lines 186-208). -/
structure ExecResult where
  returncode : Int
  stdout : String
  stderr : String
  execution_time : Nat
  success : Bool
deriving DecidableEq

/-- The abstract environment: harness directory (`Path(__file__).parent`),
filesystem, and the operating system's behaviour when running a script. -/
structure Env where
  scriptDir : String
  fileExists : String → Bool
  readFile : String → Option String
  runScript : String → Nat → RunOutcome

/-- A test-case dictionary as read from `Testcase.json`; absent keys are
`none`. -/
structure TestCaseDict where
  name : Option String := none
  script_path : Option String := none
  expected_success : Option Bool := none
  timeout : Option Nat := none
  expected_output : Option String := none
  expected_result_file : Option String := none
deriving DecidableEq

/-- One JSON list entry: a bare string or a full descriptor object. -/
inductive ConfigEntry where
  | str (s : String)
  | obj (d : TestCaseDict)
deriving DecidableEq

/-- `Path(p).is_absolute()` on POSIX: the path begins with `/`. -/
def isAbsolutePath (p : String) : Bool :=
  match p.toList with
  | [] => false
  | c :: _ => c = '/'

/-- `Path(dir) / rel` for a relative `rel`. -/
def joinPath (dir rel : String) : String := dir ++ "/" ++ rel

/-- The final path component: the part after the last `/`. -/
def pathName (p : String) : String :=
  ((p.toList.reverse.takeWhile (fun c => c ≠ '/')).reverse).asString

/-- `Path(p).stem`: the final component without its last dot-suffix (a dot
at position 0 of the name does not start a suffix). -/
def pathStem (p : String) : String :=
  let n := pathName p
  let revChars := n.toList.reverse
  let afterDot := revChars.takeWhile (fun c => c ≠ '.')
  if afterDot.length = revChars.length then n
  else if afterDot.length + 1 = revChars.length then n
  else ((revChars.drop (afterDot.length + 1)).reverse).asString

/-- `str.rstrip()`: drop trailing whitespace. -/
def rstripStr (s : String) : String :=
  ((s.toList.reverse.dropWhile Char.isWhitespace).reverse).asString

/-- `str.strip()`: drop leading and trailing whitespace. -/
def stripStr (s : String) : String :=
  (((s.toList.dropWhile Char.isWhitespace).reverse.dropWhile
      Char.isWhitespace).reverse).asString

/-- `sub in hay` on lists of characters, structural on the haystack. -/
def listStartsWith : List Char → List Char → Bool
  | _, [] => true
  | [], _ :: _ => false
  | c :: cs, d :: ds => (c = d) && listStartsWith cs ds

/-- `listContainsSub hay needle`: `needle` occurs contiguously in `hay`. -/
def listContainsSub : List Char → List Char → Bool
  | [], needle => needle.isEmpty
  | c :: cs, needle => listStartsWith (c :: cs) needle || listContainsSub cs needle

/-- Python's `needle in hay` for strings. -/
def strIn (needle hay : String) : Bool :=
  listContainsSub hay.toList needle.toList

/-- A single-quote character as a string (used inside error messages). -/
def apos : String := String.singleton (Char.ofNat 39)

/-- `"=" * 50` and friends: `s * n`. -/
def strMul (s : String) (n : Nat) : String :=
  String.join (List.replicate n s)

/-- `f"{t:.2f}"` for a whole number of seconds. -/
def fmt2 (t : Nat) : String := toString t ++ ".00"

/-- `load_test_cases`' normalization of one entry (source lines 133-141):
a bare string becomes a descriptor with a derived name and the string as
`script_path`; an object is passed through unchanged. -/
def normalize_test_case : ConfigEntry → TestCaseDict
  | .str s => { name := some ("Test " ++ pathStem s), script_path := some s }
  | .obj d => d

/-- `load_test_cases` (source lines 131-143), applied to an
already-parsed JSON list. Locating and parsing `Testcase.json` (fatal for
the whole run on absence or malformed JSON) is outside this function's
scope here; the claims below are about the normalization. -/
def load_test_cases (cfg : List ConfigEntry) : List TestCaseDict :=
  cfg.map normalize_test_case

/-- `test_case.get('name', 'Unnamed test')` (source line 212). -/
def descName (tc : TestCaseDict) : String := tc.name.getD "Unnamed test"

/-- `test_case.get('expected_success', True)` (source line 214). -/
def descExpectedSuccess (tc : TestCaseDict) : Bool :=
  tc.expected_success.getD true

/-- `test_case.get('timeout', 30)` (source line 215). -/
def descTimeout (tc : TestCaseDict) : Nat := tc.timeout.getD 30

/-- Path resolution inside `execute_bash_script` (source lines 165-171):
a relative path is replaced by its harness-directory resolution when that
exists, otherwise kept as is. -/
def resolveExec (env : Env) (script_path : String) : String :=
  if isAbsolutePath script_path then script_path
  else
    let full_path := joinPath env.scriptDir script_path
    if env.fileExists full_path then full_path else script_path

/-- `execute_bash_script(script_path, timeout)` (source lines 163-208).
The `try` body chmods and launches the script; any exception during that
(including from `chmod`) is abstracted into `Env.runScript` returning
`RunOutcome.launchError (str e)`. Exceptions are never propagated: every
case returns an `ExecResult` dictionary. -/
def execute_bash_script (env : Env) (script_path : String) (timeout : Nat) :
    ExecResult :=
  let sp := resolveExec env script_path
  match env.runScript sp timeout with
  | .completed rc out err elapsed =>
      { returncode := rc, stdout := out, stderr := err,
        execution_time := elapsed, success := rc == 0 }
  | .timedOut =>
      { returncode := -1, stdout := "",
        stderr := "Script execution timed out after " ++ toString timeout
          ++ " seconds",
        execution_time := timeout, success := false }
  | .launchError e =>
      { returncode := -1, stdout := "", stderr := e,
        execution_time := 0, success := false }

/-- The ways `test_bash_script` can fail (exceptions escaping it):
failing `assert`s, the raised validation error, and the
`UnboundLocalError` produced when the assertion message of source line 232
reads the never-assigned local `script_dir` (which happens exactly when
`script_path` is absolute). -/
inductive TestFailure where
  | noScriptPath (msg : String)
  | scriptNotFound (msg : String)
  | nameError (varName : String)
  | successMismatch (msg : String)
  | validationFailure (msg : String)
deriving DecidableEq

/-- The arguments of one `log_test_result` call (source line 277). -/
structure LogEntry where
  test_name : String
  script_path : String
  result : ExecResult
  expected_success : Bool
  validation_error : Option String
deriving DecidableEq

/-- Path resolution inside `test_bash_script` (source lines 219-231):
returns the resolved `script_path` together with the binding of the local
variable `script_dir` (`none` when the absolute branch left it unassigned). -/
def resolveScript (env : Env) (script_path : String) :
    String × Option String :=
  if isAbsolutePath script_path then (script_path, none)
  else
    let script_dir := env.scriptDir
    let full_path := joinPath script_dir script_path
    if env.fileExists full_path then (full_path, some script_dir)
    else
      let full_path_sh := joinPath script_dir (script_path ++ ".sh")
      if env.fileExists full_path_sh then (full_path_sh, some script_dir)
      else (script_path, some script_dir)

/-- The assertion message of source lines 239-242. -/
def mismatchMsg (name : String) (expected_success : Bool) : String :=
  "Test " ++ name ++ " " ++ (if expected_success then "failed" else "succeeded")
    ++ " but was expected to "
    ++ (if expected_success then "succeed" else "fail") ++ "."

/-- The assertion message of source lines 247-249. -/
def substringMsg (expected_output : String) : String :=
  "Expected output " ++ apos ++ expected_output ++ apos
    ++ " not found in script output"

/-- The assertion message of source lines 266-270. -/
def fileMismatchMsg (expected_result_file expected_content actual_output :
    String) : String :=
  "Expected output from " ++ expected_result_file
    ++ " does not match actual output.\nExpected:\n" ++ expected_content
    ++ "\nActual:\n" ++ actual_output

/-- The assertion message of source line 232: built from the current
`script_path` and the local `script_dir`. -/
def notFoundMsg (script_path name script_dir : String) : String :=
  "Script " ++ script_path ++ " not found for test " ++ name
    ++ ". Checked paths: " ++ script_path ++ ", "
    ++ joinPath script_dir script_path

/-- Substring validation (source lines 245-251): only when
`expected_output` is present and truthy (non-empty); a failed assertion is
caught and stored as the validation error. -/
def substringCheck (tc : TestCaseDict) (stdout : String) : Option String :=
  match tc.expected_output with
  | none => none
  | some eo =>
      if eo = "" then none
      else if strIn eo stdout then none
      else some (substringMsg eo)

/-- `Path(expected_result_file)` resolution (source lines 255-258). -/
def resolveResultFile (env : Env) (erf : String) : String :=
  if isAbsolutePath erf then erf else joinPath env.scriptDir erf

/-- File-content validation (source lines 253-274): only when
`expected_result_file` is present and truthy. On any failure (content
mismatch or missing file) it overwrites `validation_error`, the value
produced by the substring check; when the check passes or does not apply,
the earlier value is kept. -/
def fileContentCheck (env : Env) (tc : TestCaseDict) (stdout : String)
    (validation_error : Option String) : Option String :=
  match tc.expected_result_file with
  | none => validation_error
  | some erf =>
      if erf = "" then validation_error
      else
        let expected_result_file := resolveResultFile env erf
        match env.readFile expected_result_file with
        | some content =>
            let expected_content := stripStr content
            let actual_output := stripStr stdout
            if expected_content = actual_output then validation_error
            else some (fileMismatchMsg erf expected_content actual_output)
        | none =>
            some ("Expected result file " ++ expected_result_file
              ++ " not found")

/-- `test_bash_script(test_case)` (source lines 210-281). The first
component is the control outcome (`.ok ()` when the test passes, or the
exception that escapes it); the second lists the `log_test_result` calls
the run performed, in order. Note that the success-mismatch `assert`
(line 239) raises before `log_test_result` (line 277) is reached, so that
path produces no log call. -/
def test_bash_script (env : Env) (tc : TestCaseDict) :
    Except TestFailure Unit × List LogEntry :=
  let name := descName tc
  match tc.script_path with
  | none =>
      (.error (.noScriptPath ("No script path specified for test " ++ name)),
        [])
  | some sp0 =>
      let expected_success := descExpectedSuccess tc
      let timeout := descTimeout tc
      let res := resolveScript env sp0
      let script_path := res.1
      if env.fileExists script_path then
        let result := execute_bash_script env script_path timeout
        if result.success == expected_success then
          let ve1 := substringCheck tc result.stdout
          let validation_error := fileContentCheck env tc result.stdout ve1
          let entry : LogEntry :=
            ⟨name, script_path, result, expected_success, validation_error⟩
          match validation_error with
          | some m => (.error (.validationFailure m), [entry])
          | none => (.ok (), [entry])
        else
          (.error (.successMismatch (mismatchMsg name expected_success)), [])
      else
        match res.2 with
        | some script_dir =>
            (.error (.scriptNotFound (notFoundMsg script_path name script_dir)),
              [])
        | none => (.error (.nameError "script_dir"), [])

/-- The logger's state: the two globals (`TEST_RUN_DIR`,
`RESULT_LOG_FILE`), the directories created so far, and the files on disk
as an association list path ↦ content. -/
structure LoggerState where
  test_run_dir : Option String
  result_log_file : Option String
  dirs : List String
  files : List (String × String)
deriving DecidableEq

/-- The state before any logging happened in this process. -/
def initLogger : LoggerState :=
  { test_run_dir := none, result_log_file := none, dirs := [], files := [] }

/-- `mkdir(exist_ok=True)`: create the directory when absent. -/
def mkdirP (dirs : List String) (d : String) : List String :=
  if d ∈ dirs then dirs else dirs ++ [d]

/-- `open(p, 'w')` followed by writing `c`: create or truncate-overwrite. -/
def writeF : List (String × String) → String → String →
    List (String × String)
  | [], p, c => [(p, c)]
  | e :: t, p, c => if e.1 = p then (p, c) :: t else e :: writeF t p c

/-- Content of the file at `p`, when it exists. -/
def getF (fs : List (String × String)) (p : String) : Option String :=
  (fs.find? (fun e => e.1 = p)).map Prod.snd

/-- `open(p, 'a')` followed by writing `c`: append, creating if absent. -/
def appendF : List (String × String) → String → String →
    List (String × String)
  | [], p, c => [(p, c)]
  | e :: t, p, c =>
      if e.1 = p then (e.1, e.2 ++ c) :: t else e :: appendF t p c

/-- The header written into `result.log` (source lines 34-36). -/
def runHeader (tsHeader : String) : String :=
  "Test Run Started: " ++ tsHeader ++ "\n" ++ strMul "=" 50 ++ "\n\n"

/-- `setup_logging()` (source lines 13-38). `tsDir` is
`now().strftime("%Y%m%d_%H%M%S")` (line 26) and `tsHeader` is
`now().strftime('%Y-%m-%d %H:%M:%S')` (line 35). A second call while
`TEST_RUN_DIR` is already set returns immediately. -/
def setup_logging (tsDir tsHeader : String) (s : LoggerState) : LoggerState :=
  if s.test_run_dir.isSome then s
  else
    let dirs := mkdirP s.dirs "logs"
    let runDir := "logs/test_run_" ++ tsDir
    let dirs := mkdirP dirs runDir
    let logFile := runDir ++ "/result.log"
    { test_run_dir := some runDir, result_log_file := some logFile,
      dirs := dirs, files := writeF s.files logFile (runHeader tsHeader) }

/-- The sanitized test name (source line 49): keep alphanumerics, space,
hyphen, underscore; drop the rest; strip trailing whitespace. -/
def safeName (test_name : String) : String :=
  rstripStr ((test_name.toList.filter
    (fun c => c.isAlphanum || c = ' ' || c = '-' || c = '_')).asString)

/-- `str.replace(' ', '_')`. -/
def underscoreSpaces (s : String) : String :=
  (s.toList.map (fun c => if c = ' ' then '_' else c)).asString

/-- The per-test log file path (source line 50): sanitized name with
spaces replaced by underscores, under the run directory. -/
def testLogPath (runDir test_name : String) : String :=
  runDir ++ "/" ++ underscoreSpaces (safeName test_name) ++ ".log"

/-- `str.split(chr(10))[0]`: everything before the first newline. -/
def firstLine (s : String) : String :=
  (s.toList.takeWhile (fun c => c ≠ '\n')).asString

/-- `result['success'] == expected_success` (source line 55). -/
def entryScriptSuccess (e : LogEntry) : Bool :=
  e.result.success == e.expected_success

/-- The computed status string (source lines 54-59). -/
def entryStatus (e : LogEntry) : String :=
  if entryScriptSuccess e && e.validation_error.isNone then "PASSED"
  else "FAILED"

/-- The content of the per-test log file (source lines 62-87). -/
def testLogContent (ts : String) (e : LogEntry) : String :=
  "Test: " ++ e.test_name ++ "\n"
  ++ "Script: " ++ e.script_path ++ "\n"
  ++ "Timestamp: " ++ ts ++ "\n"
  ++ "Status: " ++ entryStatus e ++ "\n"
  ++ "Expected Success: " ++ toString e.expected_success ++ "\n"
  ++ "Actual Success: " ++ toString e.result.success ++ "\n"
  ++ "Return Code: " ++ toString e.result.returncode ++ "\n"
  ++ "Execution Time: " ++ fmt2 e.result.execution_time ++ " seconds\n\n"
  ++ "STDOUT:\n"
  ++ (if e.result.stdout = "" then "(no output)" else e.result.stdout) ++ "\n\n"
  ++ "STDERR:\n"
  ++ (if e.result.stderr = "" then "(no errors)" else e.result.stderr)
  ++ "\n\n"
  ++ (match e.validation_error with
      | some ve => "\nVALIDATION ERROR:\n" ++ ve ++ "\n\n"
      | none => "")
  ++ strMul "=" 50 ++ "\n"

/-- The block appended to `result.log` for one test (source lines 94-108). -/
def summaryBlock (ts : String) (e : LogEntry) : String :=
  "[" ++ ts ++ "] " ++ entryStatus e ++ ": " ++ e.test_name ++ "\n"
  ++ "  Script: " ++ e.script_path ++ "\n"
  ++ "  Execution Time: " ++ fmt2 e.result.execution_time ++ "s\n"
  ++ "  Return Code: " ++ toString e.result.returncode ++ "\n"
  ++ (if entryScriptSuccess e then ""
      else "  Script Status: Expected "
        ++ (if e.expected_success then "success" else "failure")
        ++ " but got "
        ++ (if e.result.success then "success" else "failure") ++ "\n")
  ++ (match e.validation_error with
      | some ve => "  Validation Error: " ++ firstLine ve ++ "...\n"
      | none => "")
  ++ (if e.result.stderr = "" then ""
      else "  Error: " ++ (e.result.stderr.take 100) ++ "...\n")
  ++ "\n"

/-- `log_test_result(...)` (source lines 40-108). `tsDir`/`tsHeader` feed
the lazy `setup_logging()` call of line 46; `ts` is the `now()` of line
52. Writes the per-test file with mode `'w'` and appends the summary
block to `RESULT_LOG_FILE`. -/
def log_test_result (tsDir tsHeader ts : String) (e : LogEntry)
    (s : LoggerState) : LoggerState :=
  let s := if s.test_run_dir.isNone then setup_logging tsDir tsHeader s else s
  let runDir := s.test_run_dir.getD ""
  let test_log_file := testLogPath runDir e.test_name
  let files := writeF s.files test_log_file (testLogContent ts e)
  let files := appendF files (s.result_log_file.getD "") (summaryBlock ts e)
  { s with files := files }

/-- `finalize_logging()` (source lines 110-117): appends the closing
separator and timestamp when the summary log exists. -/
def finalize_logging (tsEnd : String) (s : LoggerState) : LoggerState :=
  match s.result_log_file with
  | some f =>
      if (getF s.files f).isSome then
        appendToState s f
          (strMul "=" 50 ++ "\n" ++ "Test Run Completed: " ++ tsEnd ++ "\n")
      else s
  | none => s
where
  appendToState (s : LoggerState) (f c : String) : LoggerState :=
    { s with files := appendF s.files f c }

/-- The execution result computed by `test_bash_script` (source line 234)
once the script path `sp0` has been resolved. -/
def runResultOf (env : Env) (tc : TestCaseDict) (sp0 : String) : ExecResult :=
  execute_bash_script env (resolveScript env sp0).1 (descTimeout tc)

/-- The final `validation_error` local of `test_bash_script` (source
lines 236-274): the substring check's verdict, then the file-content
check applied on top of it. -/
def validationErrorOf (env : Env) (tc : TestCaseDict) (sp0 : String) :
    Option String :=
  fileContentCheck env tc (runResultOf env tc sp0).stdout
    (substringCheck tc (runResultOf env tc sp0).stdout)

/-- The `log_test_result` argument tuple of source line 277. -/
def logEntryOf (env : Env) (tc : TestCaseDict) (sp0 : String) : LogEntry :=
  ⟨descName tc, (resolveScript env sp0).1, runResultOf env tc sp0,
    descExpectedSuccess tc, validationErrorOf env tc sp0⟩

/-! Concrete fixtures used to evaluate the model on specific inputs. -/

/-- An environment whose only script hangs past its timeout. -/
def envTimeoutFx : Env :=
  { scriptDir := "/h", fileExists := fun p => p == "/h/s.sh",
    readFile := fun _ => none, runScript := fun _ _ => .timedOut }

/-- An environment where launching the interpreter fails. -/
def envLaunchFx : Env :=
  { scriptDir := "/h", fileExists := fun p => p == "/h/s.sh",
    readFile := fun _ => none,
    runScript := fun _ _ => .launchError "No such file or directory" }

/-- An environment whose script exists and exits with code 1. -/
def envExitOneFx : Env :=
  { scriptDir := "/h", fileExists := fun p => p == "/h/s.sh",
    readFile := fun _ => none,
    runScript := fun _ _ => .completed 1 "out" "" 0 }

/-- A minimal descriptor naming the script `s.sh`. -/
def tcPlainFx : TestCaseDict :=
  { name := some "T", script_path := some "s.sh" }

/-- A descriptor whose substring and file-content validations would both
fail (for the script of `envExitOneFx`). -/
def tcBothChecksFx : TestCaseDict :=
  { name := some "T2", script_path := some "s.sh",
    expected_output := some "hello", expected_result_file := some "exp.txt" }

/-- An environment with no files at all. -/
def envEmptyFx : Env :=
  { scriptDir := "/h", fileExists := fun _ => false,
    readFile := fun _ => none, runScript := fun _ _ => .timedOut }

/-- A descriptor with an absolute, nonexistent script path. -/
def tcAbsMissingFx : TestCaseDict :=
  { name := some "T9", script_path := some "/nope/abs.sh" }

/-- An environment for the file-content check: script prints `42`, the
expected-result file contains `42` plus a trailing newline. -/
def envFileMatchFx : Env :=
  { scriptDir := "/h", fileExists := fun p => p == "/h/s.sh",
    readFile := fun p => if p == "/h/exp.txt" then some "42\n" else none,
    runScript := fun _ _ => .completed 0 "42" "" 0 }

/-- Like `envFileMatchFx` but the script prints `43`. -/
def envFileMismatchFx : Env :=
  { scriptDir := "/h", fileExists := fun p => p == "/h/s.sh",
    readFile := fun p => if p == "/h/exp.txt" then some "42\n" else none,
    runScript := fun _ _ => .completed 0 "43" "" 0 }

/-- Like `envFileMatchFx` but the expected-result file is missing. -/
def envFileMissingFx : Env :=
  { scriptDir := "/h", fileExists := fun p => p == "/h/s.sh",
    readFile := fun _ => none, runScript := fun _ _ => .completed 0 "42" "" 0 }

/-- A descriptor using only the file-content check. -/
def tcFileOnlyFx : TestCaseDict :=
  { name := some "T8", script_path := some "s.sh",
    expected_result_file := some "exp.txt" }

/-- An environment where the substring check and the file-content check
both fail: stdout is `out`, the expected-result file holds `expected`. -/
def envBothFailFx : Env :=
  { scriptDir := "/h", fileExists := fun p => p == "/h/s.sh",
    readFile := fun p => if p == "/h/exp.txt" then some "expected" else none,
    runScript := fun _ _ => .completed 0 "out" "" 0 }

/-- A successful execution result used by the logger fixtures. -/
def resOkFx : ExecResult :=
  { returncode := 0, stdout := "ok", stderr := "",
    execution_time := 1, success := true }

/-- Two distinct recorded test cases whose names sanitize to the same
log-file name `Test_A.log`. -/
def entryBangFx : LogEntry :=
  ⟨"Test A!", "/h/a.sh", resOkFx, true, none⟩

/-- See `entryBangFx`; note the different script path. -/
def entryQuestionFx : LogEntry :=
  ⟨"Test A?", "/h/b.sh", resOkFx, true, none⟩

/-- Two recorded test cases with distinct sanitized names. -/
def entryAFx : LogEntry := ⟨"Test A", "/h/a.sh", resOkFx, true, none⟩

/-- See `entryAFx`. -/
def entryBFx : LogEntry := ⟨"Test B", "/h/b.sh", resOkFx, true, none⟩

/-- A logger state with a run already set up. -/
def loggerReadyFx : LoggerState :=
  setup_logging "20240101_000000" "2024-01-01 00:00:00" initLogger

/-! Theorems. -/

/-- Helper: a run directory name is never the logs root. -/
theorem runDir_ne_logs (t : String) : "logs/test_run_" ++ t ≠ "logs" := by
  intro h
  have hl := congrArg String.length h
  rw [String.length_append] at hl
  rw [show ("logs/test_run_" : String).length = 14 from rfl,
    show ("logs" : String).length = 4 from rfl] at hl
  omega

/-- C3: whenever running the resolved script ends in a timeout,
`execute_bash_script` returns return code `-1`, `success = false`, empty
stdout, a timeout message on stderr, and `execution_time` equal to the
timeout parameter rather than any measured duration. -/
theorem execute_timeout_result (env : Env) (p : String) (t : Nat)
    (h : env.runScript (resolveExec env p) t = .timedOut) :
    execute_bash_script env p t =
      { returncode := -1, stdout := "",
        stderr := "Script execution timed out after " ++ toString t
          ++ " seconds",
        execution_time := t, success := false } := by
  simp [execute_bash_script, h]

/-- Witness for C3 on a concrete environment and timeout. -/
theorem execute_timeout_result_witness :
    execute_bash_script envTimeoutFx "/s.sh" 5 =
      { returncode := -1, stdout := "",
        stderr := "Script execution timed out after 5 seconds",
        execution_time := 5, success := false } :=
  execute_timeout_result envTimeoutFx "/s.sh" 5 rfl

/-- C4: whenever launching the script raises (interpreter missing,
permission error, ...), `execute_bash_script` returns a failed result —
return code `-1`, `success = false`, stderr the error description,
`execution_time = 0` — instead of propagating the exception. -/
theorem execute_launch_failure_result (env : Env) (p : String) (t : Nat)
    (e : String)
    (h : env.runScript (resolveExec env p) t = .launchError e) :
    execute_bash_script env p t =
      { returncode := -1, stdout := "", stderr := e,
        execution_time := 0, success := false } := by
  simp [execute_bash_script, h]

/-- Witness for C4 on a concrete environment. -/
theorem execute_launch_failure_result_witness :
    execute_bash_script envLaunchFx "/s.sh" 5 =
      { returncode := -1, stdout := "",
        stderr := "No such file or directory",
        execution_time := 0, success := false } :=
  execute_launch_failure_result envLaunchFx "/s.sh" 5
    "No such file or directory" rfl

/-- C5: loading the single bare string `foo.sh` yields exactly one
descriptor named `Test foo` with `script_path = foo.sh`; its consumption
defaults are `expected_success = true` and `timeout = 30`; object entries
pass through `normalize_test_case` unchanged; and loading preserves the
length and order of the configuration list. -/
theorem load_test_cases_spec :
    load_test_cases [ConfigEntry.str "foo.sh"] =
      [{ name := some "Test foo", script_path := some "foo.sh" }]
    ∧ descExpectedSuccess
        { name := some "Test foo", script_path := some "foo.sh" } = true
    ∧ descTimeout
        { name := some "Test foo", script_path := some "foo.sh" } = 30
    ∧ (∀ d : TestCaseDict, normalize_test_case (.obj d) = d)
    ∧ (∀ cfg : List ConfigEntry, (load_test_cases cfg).length = cfg.length)
    ∧ (∀ cfg : List ConfigEntry, ∀ i : Nat,
        (load_test_cases cfg)[i]? =
          (cfg[i]?).map normalize_test_case) :=
  ⟨rfl, rfl, rfl, fun _ => rfl,
    fun cfg => List.length_map cfg normalize_test_case,
    fun cfg i => List.getElem?_map normalize_test_case cfg i⟩

/-- C6: `setup_logging` is idempotent — a second call (with any later
timestamps) leaves the state unchanged — and two calls starting from the
initial state create exactly one run directory (under the `logs` root)
and exactly one summary log file, whose header is written once. -/
theorem setup_logging_idempotent (t1 h1 t2 h2 : String) :
    setup_logging t2 h2 (setup_logging t1 h1 initLogger) =
      setup_logging t1 h1 initLogger
    ∧ (setup_logging t1 h1 initLogger).dirs =
        ["logs", "logs/test_run_" ++ t1]
    ∧ (setup_logging t1 h1 initLogger).files =
        [("logs/test_run_" ++ t1 ++ "/result.log", runHeader h1)] := by
  have hne := runDir_ne_logs t1
  have hs1 : setup_logging t1 h1 initLogger =
      { test_run_dir := some ("logs/test_run_" ++ t1),
        result_log_file := some ("logs/test_run_" ++ t1 ++ "/result.log"),
        dirs := ["logs", "logs/test_run_" ++ t1],
        files := [("logs/test_run_" ++ t1 ++ "/result.log",
          runHeader h1)] } := by
    simp [setup_logging, initLogger, mkdirP, writeF, hne]
  rw [hs1]
  exact ⟨by simp [setup_logging], rfl, rfl⟩

/-- C1 (failing input): a test case whose script runs but exits 1 while
success is expected. The success-mismatch `assert` (source line 239)
raises before `log_test_result` (line 277) is reached, so the run makes
no logging call at all: no per-test log file and no summary entry are
produced for this executed test case, although `log_test_result` itself
has a dedicated summary line for exactly this mismatch (lines 100-101),
unreachable through this path. -/
theorem mismatch_not_logged_on_failing_input :
    test_bash_script envExitOneFx tcPlainFx =
      (.error (.successMismatch "Test T failed but was expected to succeed."),
        []) := rfl

/-- C2: when the resolved script exists and the execution result's
`success` flag disagrees with `expected_success`, the failure surfaced to
the caller is the success mismatch, whatever the substring or
file-content checks would have said (the environment and the descriptor's
validation fields are arbitrary here). -/
theorem success_mismatch_reported_first (env : Env) (tc : TestCaseDict)
    (sp0 : String) (hsp : tc.script_path = some sp0)
    (hex : env.fileExists (resolveScript env sp0).1 = true)
    (hmm : (execute_bash_script env (resolveScript env sp0).1
      (descTimeout tc)).success ≠ descExpectedSuccess tc) :
    (test_bash_script env tc).1 =
      .error (.successMismatch
        (mismatchMsg (descName tc) (descExpectedSuccess tc))) := by
  have hb : ((execute_bash_script env (resolveScript env sp0).1
      (descTimeout tc)).success == descExpectedSuccess tc) = false := by
    simpa using hmm
  simp [test_bash_script, hsp, hex, hb]

/-- Witness for C2: a descriptor whose substring check (`hello` absent
from stdout `out`) and file-content check (`exp.txt` missing) would both
fail, yet the reported failure is the success mismatch. -/
theorem success_mismatch_reported_first_witness :
    (test_bash_script envExitOneFx tcBothChecksFx).1 =
      .error (.successMismatch
        "Test T2 failed but was expected to succeed.") :=
  success_mismatch_reported_first envExitOneFx tcBothChecksFx "s.sh"
    rfl rfl (by decide)

/-- C9 (failing input): a descriptor whose `script_path` is absolute and
does not exist. The existence `assert` (source line 232) fails, and
evaluating its message reads the local `script_dir`, which the absolute
branch never assigned: the test dies with `UnboundLocalError` instead of
the `not found, checked paths` assertion message. -/
theorem absolute_missing_script_name_error :
    test_bash_script envEmptyFx tcAbsMissingFx =
      (.error (.nameError "script_dir"), []) := rfl

/-- Helper: once the script is found and the success check passes, the
test's outcome and its single log call are determined by the validation
error. -/
theorem test_bash_script_validation_stage (env : Env) (tc : TestCaseDict)
    (sp0 : String) (hsp : tc.script_path = some sp0)
    (hex : env.fileExists (resolveScript env sp0).1 = true)
    (hmm : (runResultOf env tc sp0).success = descExpectedSuccess tc) :
    test_bash_script env tc =
      ((match validationErrorOf env tc sp0 with
        | some m => Except.error (TestFailure.validationFailure m)
        | none => Except.ok ()),
       [logEntryOf env tc sp0]) := by
  have hb : ((execute_bash_script env (resolveScript env sp0).1
      (descTimeout tc)).success == descExpectedSuccess tc) = true := by
    simp only [beq_iff_eq]
    simpa [runResultOf] using hmm
  simp [test_bash_script, hsp, hex, hb, validationErrorOf, logEntryOf,
    runResultOf]
  cases fileContentCheck env tc
      (execute_bash_script env (resolveScript env sp0).1
        (descTimeout tc)).stdout
      (substringCheck tc
        (execute_bash_script env (resolveScript env sp0).1
          (descTimeout tc)).stdout) <;> rfl

/-- Helper: two string concatenations differ when their initial segments
of some common length differ. -/
theorem append_ne_of_take_ne (p1 p2 s1 s2 : String) (n : Nat)
    (h1 : n ≤ p1.length) (h2 : n ≤ p2.length)
    (hne : p1.data.take n ≠ p2.data.take n) : p1 ++ s1 ≠ p2 ++ s2 := by
  intro h
  apply hne
  have hd := congrArg String.data h
  rw [String.data_append, String.data_append] at hd
  have ht := congrArg (List.take n) hd
  rwa [List.take_append_of_le_length h1, List.take_append_of_le_length h2]
    at ht

/-- Helper: a file-content mismatch message is never a substring-check
message (they differ at character 16). -/
theorem fileMismatchMsg_ne_substringMsg (erf e a eo : String) :
    fileMismatchMsg erf e a ≠ substringMsg eo := by
  simp only [fileMismatchMsg, substringMsg, String.append_assoc]
  rw [← String.append_assoc "Expected output " apos]
  exact append_ne_of_take_ne _ _ _ _ 17 (by decide) (by decide) (by decide)

/-- Helper: a missing-expected-file message is never a substring-check
message (they differ at character 9). -/
theorem fileNotFoundMsg_ne_substringMsg (p eo : String) :
    "Expected result file " ++ p ++ " not found" ≠ substringMsg eo := by
  simp only [substringMsg, String.append_assoc]
  rw [← String.append_assoc "Expected output " apos]
  exact append_ne_of_take_ne _ _ _ _ 10 (by decide) (by decide) (by decide)

/-- C8: with `expected_result_file` set (and the success check passed,
no substring check configured), the test passes exactly when the file's
content and the script's stdout agree after trimming both ends; a
mismatch fails the test with a message embedding both trimmed values;
and a missing expected-result file is itself reported as a validation
failure. -/
theorem file_content_check_behaviour (env : Env) (tc : TestCaseDict)
    (sp0 erf : String) (hsp : tc.script_path = some sp0)
    (hex : env.fileExists (resolveScript env sp0).1 = true)
    (hmm : (runResultOf env tc sp0).success = descExpectedSuccess tc)
    (hout : tc.expected_output = none)
    (herf : tc.expected_result_file = some erf) (hne : erf ≠ "") :
    (∀ c, env.readFile (resolveResultFile env erf) = some c →
      ((test_bash_script env tc).1 = .ok () ↔
        stripStr c = stripStr (runResultOf env tc sp0).stdout)
      ∧ (stripStr c ≠ stripStr (runResultOf env tc sp0).stdout →
          (test_bash_script env tc).1 = .error (.validationFailure
            (fileMismatchMsg erf (stripStr c)
              (stripStr (runResultOf env tc sp0).stdout)))))
    ∧ (env.readFile (resolveResultFile env erf) = none →
        (test_bash_script env tc).1 = .error (.validationFailure
          ("Expected result file " ++ resolveResultFile env erf
            ++ " not found"))) := by
  have hstage := test_bash_script_validation_stage env tc sp0 hsp hex hmm
  have hsub : substringCheck tc (runResultOf env tc sp0).stdout = none := by
    simp [substringCheck, hout]
  constructor
  · intro c hc
    by_cases heq : stripStr c = stripStr (runResultOf env tc sp0).stdout
    · have hve : validationErrorOf env tc sp0 = none := by
        simp [validationErrorOf, fileContentCheck, herf, hne, hc, hsub, heq]
      simp [hstage, hve, heq]
    · have hve : validationErrorOf env tc sp0 =
          some (fileMismatchMsg erf (stripStr c)
            (stripStr (runResultOf env tc sp0).stdout)) := by
        simp [validationErrorOf, fileContentCheck, herf, hne, hc, hsub, heq]
      simp [hstage, hve, heq]
  · intro hc
    have hve : validationErrorOf env tc sp0 =
        some ("Expected result file " ++ resolveResultFile env erf
          ++ " not found") := by
      simp [validationErrorOf, fileContentCheck, herf, hne, hc, hsub]
    simp [hstage, hve]

/-- Witness for C8: a file containing `42` with a trailing newline
matches stdout `42` (PASSED); stdout `43` fails with both trimmed values
embedded in the message; a missing expected file is a validation
failure. -/
theorem file_content_check_behaviour_witness :
    (test_bash_script envFileMatchFx tcFileOnlyFx).1 = .ok ()
    ∧ (test_bash_script envFileMismatchFx tcFileOnlyFx).1 =
        .error (.validationFailure (fileMismatchMsg "exp.txt" "42" "43"))
    ∧ (test_bash_script envFileMissingFx tcFileOnlyFx).1 =
        .error (.validationFailure
          "Expected result file /h/exp.txt not found") := by
  refine ⟨?_, ?_, ?_⟩
  · exact ((file_content_check_behaviour envFileMatchFx tcFileOnlyFx
      "s.sh" "exp.txt" rfl rfl rfl rfl rfl (by decide)).1
        "42\n" rfl).1.mpr (by decide)
  · exact ((file_content_check_behaviour envFileMismatchFx tcFileOnlyFx
      "s.sh" "exp.txt" rfl rfl rfl rfl rfl (by decide)).1
        "42\n" rfl).2 (by decide)
  · exact (file_content_check_behaviour envFileMissingFx tcFileOnlyFx
      "s.sh" "exp.txt" rfl rfl rfl rfl rfl (by decide)).2 rfl

/-- C10: when the substring check fails (`expected_output` not in
stdout) and the file-content check also fails (mismatch or missing
file), the test's surfaced failure and its log entry carry only the
file-content error message, which is distinct from the substring error
message: the substring error is overwritten and lost. -/
theorem file_error_overwrites_substring_error (env : Env)
    (tc : TestCaseDict) (sp0 eo erf : String)
    (hsp : tc.script_path = some sp0)
    (hex : env.fileExists (resolveScript env sp0).1 = true)
    (hmm : (runResultOf env tc sp0).success = descExpectedSuccess tc)
    (hout : tc.expected_output = some eo) (heo : eo ≠ "")
    (hnotin : strIn eo (runResultOf env tc sp0).stdout = false)
    (herf : tc.expected_result_file = some erf) (hne : erf ≠ "") :
    (∀ c, env.readFile (resolveResultFile env erf) = some c →
      stripStr c ≠ stripStr (runResultOf env tc sp0).stdout →
      test_bash_script env tc =
        (.error (.validationFailure (fileMismatchMsg erf (stripStr c)
            (stripStr (runResultOf env tc sp0).stdout))),
          [⟨descName tc, (resolveScript env sp0).1, runResultOf env tc sp0,
            descExpectedSuccess tc,
            some (fileMismatchMsg erf (stripStr c)
              (stripStr (runResultOf env tc sp0).stdout))⟩])
      ∧ fileMismatchMsg erf (stripStr c)
          (stripStr (runResultOf env tc sp0).stdout) ≠ substringMsg eo)
    ∧ (env.readFile (resolveResultFile env erf) = none →
        test_bash_script env tc =
          (.error (.validationFailure
              ("Expected result file " ++ resolveResultFile env erf
                ++ " not found")),
            [⟨descName tc, (resolveScript env sp0).1, runResultOf env tc sp0,
              descExpectedSuccess tc,
              some ("Expected result file " ++ resolveResultFile env erf
                ++ " not found")⟩])
        ∧ ("Expected result file " ++ resolveResultFile env erf
            ++ " not found") ≠ substringMsg eo) := by
  have hstage := test_bash_script_validation_stage env tc sp0 hsp hex hmm
  have hsub : substringCheck tc (runResultOf env tc sp0).stdout =
      some (substringMsg eo) := by
    simp [substringCheck, hout, heo, hnotin]
  constructor
  · intro c hc hmismatch
    have hve : validationErrorOf env tc sp0 =
        some (fileMismatchMsg erf (stripStr c)
          (stripStr (runResultOf env tc sp0).stdout)) := by
      simp [validationErrorOf, fileContentCheck, herf, hne, hc, hsub,
        hmismatch]
    refine ⟨?_, fileMismatchMsg_ne_substringMsg erf (stripStr c)
      (stripStr (runResultOf env tc sp0).stdout) eo⟩
    rw [hstage, hve]
    simp [logEntryOf, hve]
  · intro hc
    have hve : validationErrorOf env tc sp0 =
        some ("Expected result file " ++ resolveResultFile env erf
          ++ " not found") := by
      simp [validationErrorOf, fileContentCheck, herf, hne, hc, hsub]
    refine ⟨?_, fileNotFoundMsg_ne_substringMsg (resolveResultFile env erf)
      eo⟩
    rw [hstage, hve]
    simp [logEntryOf, hve]

/-- Helper: reading any other path is unaffected by a `'w'` write. -/
theorem getF_writeF_ne (fs : List (String × String)) (p c q : String)
    (h : q ≠ p) : getF (writeF fs p c) q = getF fs q := by
  induction fs with
  | nil => simp [writeF, getF, List.find?, Ne.symm h]
  | cons e t ih =>
      by_cases he : e.1 = p
      · simp [writeF, getF, he, List.find?, Ne.symm h]
      · by_cases hq : e.1 = q
        · simp [writeF, getF, he, hq, List.find?, h]
        · simpa [writeF, getF, he, hq, List.find?, h] using ih

/-- Helper: a `'w'` write sets the target file's content. -/
theorem getF_writeF_self (fs : List (String × String)) (p c : String) :
    getF (writeF fs p c) p = some c := by
  induction fs with
  | nil => simp [writeF, getF, List.find?]
  | cons e t ih =>
      by_cases he : e.1 = p
      · simp [writeF, getF, he, List.find?]
      · simpa [writeF, getF, he, List.find?] using ih

/-- Helper: reading any other path is unaffected by an `'a'` write. -/
theorem getF_appendF_ne (fs : List (String × String)) (p c q : String)
    (h : q ≠ p) : getF (appendF fs p c) q = getF fs q := by
  induction fs with
  | nil => simp [appendF, getF, List.find?, Ne.symm h]
  | cons e t ih =>
      by_cases he : e.1 = p
      · simp [appendF, getF, he, List.find?, Ne.symm h]
      · by_cases hq : e.1 = q
        · simp [appendF, getF, he, hq, List.find?, h]
        · simpa [appendF, getF, he, hq, List.find?, h] using ih

/-- Helper: an `'a'` write appends to the target file's content. -/
theorem getF_appendF_self (fs : List (String × String)) (p c old : String)
    (h : getF fs p = some old) : getF (appendF fs p c) p = some (old ++ c) := by
  induction fs with
  | nil => simp [getF, List.find?] at h
  | cons e t ih =>
      by_cases he : e.1 = p
      · have h2 : e.2 = old := by simpa [getF, List.find?, he] using h
        simp [appendF, getF, he, List.find?, h2]
      · have h2 : getF t p = some old := by
          simpa [getF, List.find?, he] using h
        simpa [appendF, getF, he, List.find?] using ih h2

/-- C7 counterexample: two distinct recorded test cases, `Test A!` and
`Test A?`, sanitize to the same log-file name `Test_A.log`; the file
written for the first is overwritten (its content changes) when the
second is logged. -/
theorem per_test_log_overwritten :
    (getF (log_test_result "d" "h" "t1" entryBangFx loggerReadyFx).files
        (testLogPath "logs/test_run_20240101_000000" "Test A!")).isSome
      = true
    ∧ entryBangFx ≠ entryQuestionFx
    ∧ testLogPath "logs/test_run_20240101_000000" "Test A!"
        = testLogPath "logs/test_run_20240101_000000" "Test A?"
    ∧ getF (log_test_result "d" "h" "t2" entryQuestionFx
            (log_test_result "d" "h" "t1" entryBangFx loggerReadyFx)).files
          (testLogPath "logs/test_run_20240101_000000" "Test A!")
        ≠ getF (log_test_result "d" "h" "t1" entryBangFx loggerReadyFx).files
            (testLogPath "logs/test_run_20240101_000000" "Test A!") := by
  refine ⟨rfl, by decide, rfl, ?_⟩
  decide

/-- C7 amended: during a run, a later `log_test_result` call only writes
the later test's own per-test file and appends to the summary log: every
other file keeps its exact content (so per-test logs written earlier are
never overwritten or deleted, provided the per-test file names are
distinct), and the summary log grows strictly by appending its block. -/
theorem logger_additive_amended (s : LoggerState) (d f tsd tsh ts : String)
    (e : LogEntry) (hdir : s.test_run_dir = some d)
    (hfile : s.result_log_file = some f)
    (hne : testLogPath d e.test_name ≠ f) (oldSum : String)
    (hsum : getF s.files f = some oldSum) :
    (∀ p, p ≠ testLogPath d e.test_name → p ≠ f →
      getF (log_test_result tsd tsh ts e s).files p = getF s.files p)
    ∧ getF (log_test_result tsd tsh ts e s).files f =
        some (oldSum ++ summaryBlock ts e)
    ∧ (∀ p c, getF s.files p = some c →
        ∃ c2, getF (log_test_result tsd tsh ts e s).files p = some c2) := by
  have hlog : (log_test_result tsd tsh ts e s).files =
      appendF (writeF s.files (testLogPath d e.test_name)
        (testLogContent ts e)) f (summaryBlock ts e) := by
    simp [log_test_result, hdir, hfile]
  refine ⟨?_, ?_, ?_⟩
  · intro p hp hpf
    rw [hlog, getF_appendF_ne _ _ _ _ hpf, getF_writeF_ne _ _ _ _ hp]
  · rw [hlog]
    exact getF_appendF_self _ _ _ _
      (by rw [getF_writeF_ne _ _ _ _ (Ne.symm hne)]; exact hsum)
  · intro p c hp
    by_cases hpf : p = f
    · exact ⟨oldSum ++ summaryBlock ts e, by
        rw [hpf, hlog]
        exact getF_appendF_self _ _ _ _
          (by rw [getF_writeF_ne _ _ _ _ (Ne.symm hne)]; exact hsum)⟩
    · by_cases hpt : p = testLogPath d e.test_name
      · exact ⟨testLogContent ts e, by
          rw [hpt, hlog, getF_appendF_ne _ _ _ _ hne]
          exact getF_writeF_self _ _ _⟩
      · exact ⟨c, by
          rw [hlog, getF_appendF_ne _ _ _ _ hpf,
            getF_writeF_ne _ _ _ _ hpt]
          exact hp⟩

set_option maxRecDepth 40000 in
/-- Witness for C7's amended statement: after logging `Test A` and then
`Test B` (distinct sanitized names), `Test A`'s log file still has the
content it had before `Test B` was logged. -/
theorem logger_additive_amended_witness :
    getF (log_test_result "d" "h" "t2" entryBFx
        (log_test_result "d" "h" "t1" entryAFx loggerReadyFx)).files
      (testLogPath "logs/test_run_20240101_000000" "Test A")
    = getF (log_test_result "d" "h" "t1" entryAFx loggerReadyFx).files
        (testLogPath "logs/test_run_20240101_000000" "Test A") :=
  (logger_additive_amended
    (log_test_result "d" "h" "t1" entryAFx loggerReadyFx)
    "logs/test_run_20240101_000000"
    "logs/test_run_20240101_000000/result.log" "d" "h" "t2" entryBFx
    rfl rfl (by decide)
    (runHeader "2024-01-01 00:00:00" ++ summaryBlock "t1" entryAFx)
    (by decide)).1
    (testLogPath "logs/test_run_20240101_000000" "Test A")
    (by decide) (by decide)

/-- Witness for C10: stdout `out` misses substring `hello` and mismatches
the expected file content `expected`; the reported and logged failure is
the file-content message, not the substring message. -/
theorem file_error_overwrites_substring_error_witness :
    test_bash_script envBothFailFx tcBothChecksFx =
      (.error (.validationFailure
          (fileMismatchMsg "exp.txt" "expected" "out")),
        [⟨"T2", "/h/s.sh",
          { returncode := 0, stdout := "out", stderr := "",
            execution_time := 0, success := true }, true,
          some (fileMismatchMsg "exp.txt" "expected" "out")⟩])
    ∧ fileMismatchMsg "exp.txt" "expected" "out" ≠ substringMsg "hello" :=
  (file_error_overwrites_substring_error envBothFailFx tcBothChecksFx
    "s.sh" "hello" "exp.txt" rfl rfl rfl rfl (by decide) rfl rfl
    (by decide)).1 "expected" rfl (by decide)
